import Mathlib

/-!
A verification development for a restaurant-recommendation program.

It models the deterministic CSV filter/rank fallback path of
streamlit_app.py (the function recommendations_from_csv and its helper
_norm) and the LLM orchestration path of phase3_llm/orchestrator.py
(prompt construction, response parsing, and the entry point
generate_restaurant_recommendations).

Numbers that the program handles as Python floats parsed from decimal
literals are modelled exactly as scaled decimals: an integer mantissa
over a power-of-ten denominator (DecNum), with a bridge DecNum.toRat to
the rationals for the ordering statements.  Python exceptions that
escape a function are modelled by Option/none or by explicit outcome
constructors.
-/

namespace RestRec

/-- The characters stripped by Python str.strip (ASCII whitespace). -/
def isPySpace (c : Char) : Bool :=
  c = ' ' || c = '\t' || c = '\n' || c = '\r' || c = '\x0b' || c = '\x0c'

/-- Python str.strip on a character list: drop leading and trailing whitespace. -/
def stripChars (l : List Char) : List Char :=
  ((l.dropWhile isPySpace).reverse.dropWhile isPySpace).reverse

/-- Python str.replace of a double space by a single space: replace
non-overlapping occurrences scanning left to right. -/
def collapseDoubleSpace : List Char → List Char
  | [] => []
  | ' ' :: ' ' :: rest => ' ' :: collapseDoubleSpace rest
  | c :: rest => c :: collapseDoubleSpace rest

/-- streamlit_app.py lines 29-30: the helper used to normalise all
compared strings.  In Python this is
(s or "").strip().lower().replace("  ", " "); lowercasing is modelled
per character (the data handled is ASCII). -/
def _norm (s : String) : String :=
  ⟨collapseDoubleSpace ((stripChars s.data).map Char.toLower)⟩

/-- Python str.split with a one-character separator. -/
def splitOnChar (sep : Char) : List Char → List (List Char)
  | [] => [[]]
  | c :: rest =>
    if c = sep then [] :: splitOnChar sep rest
    else
      match splitOnChar sep rest with
      | h :: t => (c :: h) :: t
      | [] => [[c]]

/-- The Python `in` operator on strings: the needle occurs contiguously
in the haystack. -/
def infixB (needle : List Char) : List Char → Bool
  | [] => needle.isEmpty
  | c :: t => List.isPrefixOf needle (c :: t) || infixB needle t

/-- Python string comparison: lexicographic on code points. -/
def charListLe : List Char → List Char → Bool
  | [], _ => true
  | _ :: _, [] => false
  | a :: as, b :: bs =>
    if a.toNat = b.toNat then charListLe as bs else decide (a.toNat < b.toNat)

/-- An exact decimal number: the value m / 10 ^ k.  This represents the
Python floats the program obtains from decimal literals in the data. -/
structure DecNum where
  m : Int
  k : Nat
  deriving DecidableEq

/-- The rational value of a decimal number. -/
def DecNum.toRat (d : DecNum) : ℚ := (d.m : ℚ) / 10 ^ d.k

/-- Strict order on decimal numbers by cross multiplication. -/
def DecNum.blt (a b : DecNum) : Bool := decide (a.m * 10 ^ b.k < b.m * 10 ^ a.k)

/-- Numeric equality of decimal numbers by cross multiplication. -/
def DecNum.beq (a b : DecNum) : Bool := decide (a.m * 10 ^ b.k = b.m * 10 ^ a.k)

theorem DecNum.blt_iff (a b : DecNum) : a.blt b = true ↔ a.toRat < b.toRat := by
  rw [DecNum.blt, decide_eq_true_iff, DecNum.toRat, DecNum.toRat,
    div_lt_div_iff₀ (by positivity) (by positivity)]
  constructor <;> intro h <;> exact_mod_cast h

theorem DecNum.beq_iff (a b : DecNum) : a.beq b = true ↔ a.toRat = b.toRat := by
  rw [DecNum.beq, decide_eq_true_iff, DecNum.toRat, DecNum.toRat,
    div_eq_div_iff (by positivity) (by positivity)]
  constructor <;> intro h <;> exact_mod_cast h

/-- Numeric value of a decimal digit character. -/
def digitVal (c : Char) : Nat := c.toNat - 48

/-- The natural number denoted by a list of decimal digit characters. -/
def natOfDigits (ds : List Char) : Nat := ds.foldl (fun a c => 10 * a + digitVal c) 0

/-- Split a leading run of decimal digits from the rest. -/
def takeDigits (cs : List Char) : List Char × List Char :=
  (cs.takeWhile Char.isDigit, cs.dropWhile Char.isDigit)

/-- The tail of an exponent marker: optional sign, then one or more digits. -/
def parseExpTail (cs : List Char) : Option (Int × List Char) :=
  let signed : Int × List Char :=
    match cs with
    | '+' :: r => (1, r)
    | '-' :: r => (-1, r)
    | _ => (1, cs)
  match takeDigits signed.2 with
  | ([], _) => none
  | (ds, rest) => some (signed.1 * (natOfDigits ds : Int), rest)

/-- An optional power-of-ten exponent suffix. -/
def parseExp : List Char → Option (Int × List Char)
  | 'e' :: r => parseExpTail r
  | 'E' :: r => parseExpTail r
  | cs => some (0, cs)

/-- Assemble sign, integer digits, fractional digits and exponent into an
exact decimal number. -/
def mkDecNum (neg : Bool) (ids fds : List Char) (e : Int) : DecNum :=
  let m0 : Int := (natOfDigits (ids ++ fds) : Int)
  let m : Int := if neg then -m0 else m0
  let t : Int := e - (fds.length : Int)
  if 0 ≤ t then ⟨m * 10 ^ t.toNat, 0⟩ else ⟨m, (-t).toNat⟩

/-- Python float(s) on a string, restricted to finite decimal literals:
optional surrounding whitespace, optional sign, digits with an optional
fractional part and an optional power-of-ten exponent.  The special
spellings inf and nan and underscore separators are not modelled; the
data handled contains none of them.  none models the ValueError Python
raises on a non-numeric string. -/
def pyFloat? (s : String) : Option DecNum :=
  let cs := stripChars s.data
  let signed : Bool × List Char :=
    match cs with
    | '-' :: r => (true, r)
    | '+' :: r => (false, r)
    | _ => (false, cs)
  let ip := takeDigits signed.2
  let fp : List Char × List Char :=
    match ip.2 with
    | '.' :: rr => takeDigits rr
    | _ => ([], ip.2)
  if ip.1 = [] ∧ fp.1 = [] then none
  else
    match parseExp fp.2 with
    | none => none
    | some (e, rest) => if rest = [] then some (mkDecNum signed.1 ip.1 fp.1 e) else none

/-- One CSV row as produced by csv.DictReader over the fixture file:
every column the function consults, as a string (the empty string for an
empty cell). -/
structure Row where
  id : String
  name : String
  std_city : String
  std_locality : String
  std_price_bucket : String
  std_rating : String
  std_cuisines : String
  deriving DecidableEq

/-- The request payload as consumed by recommendations_from_csv
(streamlit_app.py lines 73-86).  min_rating is the value after the
guarded float conversion of lines 77-81 (None when absent or not
numeric); cuisine_preferences is the list after the coercion of lines
82-84. -/
structure Payload where
  location : Option String
  price_preference : Option String
  min_rating : Option DecNum
  cuisine_preferences : List String
  num_results : Option Int
  deriving DecidableEq

/-- Lines 73-74: the normalised location preference split on commas,
keeping the pieces that are non-empty after stripping (the pieces
themselves are kept unstripped). -/
def locationParts (p : Payload) : List (List Char) :=
  let location_raw := _norm (p.location.getD "")
  if location_raw = "" then []
  else (splitOnChar ',' location_raw.data).filter (fun q => !(stripChars q).isEmpty)

/-- Lines 92-96: the location check.  A row passes when every location
part occurs in the normalised city or in the normalised locality (each
guarded by that field being non-empty, as Python truthiness does). -/
def locationOK (p : Payload) (r : Row) : Bool :=
  (locationParts p).all (fun q =>
    ((_norm r.std_city != "") && infixB q (_norm r.std_city).data) ||
    ((_norm r.std_locality != "") && infixB q (_norm r.std_locality).data))

/-- Line 75: the normalised price preference. -/
def pricePref (p : Payload) : String := _norm (p.price_preference.getD "")

/-- Line 97: the price check. -/
def priceOK (p : Payload) (r : Row) : Bool :=
  (pricePref p == "") || (_norm r.std_price_bucket == pricePref p)

/-- Lines 99-102: the guarded rating conversion
float(r.get("std_rating") or 0): the empty string falls back to 0,
otherwise Python float parsing; none models the caught exception. -/
def ratingOf? (r : Row) : Option DecNum :=
  if r.std_rating = "" then some ⟨0, 0⟩ else pyFloat? r.std_rating

/-- The rating with the conversion failure defaulted to 0, as the
except branch of lines 101-102 does. -/
def ratOf (r : Row) : DecNum := (ratingOf? r).getD ⟨0, 0⟩

/-- Lines 103-104: the minimum-rating check (reject when rat < min_rating). -/
def ratingOK (p : Payload) (r : Row) : Bool :=
  match p.min_rating with
  | none => true
  | some mr => !DecNum.blt (ratOf r) mr

/-- Line 85: the normalised cuisine preferences (non-empty entries only). -/
def cuisinePrefs (p : Payload) : List String :=
  (p.cuisine_preferences.filter (fun c => c != "")).map _norm

/-- Lines 106-107: the normalised cuisines of a row (split on the pipe
character, empty pieces dropped before normalisation). -/
def rowCuisines (r : Row) : List String :=
  ((splitOnChar '|' r.std_cuisines.data).filter (fun l => !l.isEmpty)).map
    (fun l => _norm ⟨l⟩)

/-- Lines 105-109: the cuisine check (at least one shared cuisine). -/
def cuisineOK (p : Payload) (r : Row) : Bool :=
  match cuisinePrefs p with
  | [] => true
  | prefs => prefs.any (fun c => (rowCuisines r).contains c)

/-- Lines 88-110: one iteration of the filter loop; a row survives when
every configured check passes. -/
def keepRow (p : Payload) (r : Row) : Bool :=
  locationOK p r && priceOK p r && ratingOK p r && cuisineOK p r

/-- Line 86: num_results = max(1, min(10, int(payload num_results or 5))).
Python truthiness makes 0 fall back to 5 as well. -/
def numResults (p : Payload) : Nat :=
  (max 1 (min 10 (match p.num_results with
    | none => 5
    | some n => if n = 0 then 5 else n))).toNat

/-- Line 112: comparison of sort keys (-rating, name): a is at most b
when a has the larger rating, or equal ratings and a name at most b
name in code-point order. -/
def rowLe (a b : Row) : Bool :=
  DecNum.blt (ratOf b) (ratOf a) ||
  (DecNum.beq (ratOf a) (ratOf b) && charListLe a.name.data b.name.data)

/-- The sort relation of line 112 as a decidable proposition. -/
def rowSortRel (a b : Row) : Prop := rowLe a b = true

instance : DecidableRel rowSortRel :=
  fun a b => inferInstanceAs (Decidable (rowLe a b = true))

/-- Lines 88-113 of recommendations_from_csv: filter, sort ascending by
the key (-rating, name), truncate to num_results.  Python computes the
sort key of every surviving row with an unguarded float conversion
(line 112), so a surviving row whose std_rating is non-empty and not a
float literal makes the sort raise ValueError; none models that raise.
Python list.sort is stable and any two stable sorts under the same
total key preorder agree, so the sort is modelled by a stable insertion
sort. -/
def selectRows (p : Payload) (rows : List Row) : Option (List Row) :=
  let filtered := rows.filter (keepRow p)
  if filtered.all (fun r => (ratingOf? r).isSome)
  then some ((filtered.insertionSort rowSortRel).take (numResults p))
  else none

/-- The restaurant shape of the response (lines 123-131). -/
structure Restaurant where
  id : String
  name : String
  city : String
  locality : String
  rating : Option DecNum
  price_bucket : String
  cuisines : List String
  deriving DecidableEq

/-- Lines 116-131: project one surviving row into the response shape.
Here the rating conversion is guarded with a None fallback (lines
119-122), and cuisines are stripped and dropped when empty (line 118). -/
def projectRow (r : Row) : Restaurant :=
  { id := r.id
    name := if r.name = "" then "Unknown" else r.name
    city := r.std_city
    locality := r.std_locality
    rating := ratingOf? r
    price_bucket := r.std_price_bucket
    cuisines := (((splitOnChar '|' r.std_cuisines.data).map stripChars).filter
      (fun l => !l.isEmpty)).map (fun l => (⟨l⟩ : String)) }

/-- The outcome of reading the fixture CSV, which the function does
before filtering: the file can be missing (line 65), reading it can
raise (lines 67-71), or it yields the row list. -/
inductive CsvLoad where
  | missing
  | failed (msg : String)
  | ok (rows : List Row)

/-- The response shape of recommendations_from_csv. -/
structure FallbackResponse where
  restaurants : List Restaurant
  explanation : Option String
  explanation_error : Option String
  deriving DecidableEq

/-- streamlit_app.py lines 63-137: the CSV fallback composer.  none
models an exception escaping the function (the unguarded sort-key
conversion of line 112 is the only raise not caught inside it). -/
def recommendations_from_csv (load : CsvLoad) (p : Payload) : Option FallbackResponse :=
  match load with
  | .missing => some ⟨[], none, some "CSV not found."⟩
  | .failed msg => some ⟨[], none, some msg⟩
  | .ok rows =>
    match selectRows p rows with
    | none => none
    | some top =>
      some ⟨top.map projectRow,
        some "Recommendations from offline data (API not connected). Start the Phase 4 API for AI explanations.",
        none⟩

/-- JSON values as Python json.loads yields them: numbers are ints or
floats (both exact decimals here), objects are dicts (modelled as the
member list in document order; lookups take the last binding, as dict
construction does on duplicate keys). -/
inductive Json where
  | null
  | bool (b : Bool)
  | num (d : DecNum)
  | str (s : String)
  | arr (xs : List Json)
  | obj (fields : List (String × Json))

/-- Python truthiness of a JSON value. -/
def falsy : Json → Bool
  | .null => true
  | .bool b => !b
  | .num d => d.m == 0
  | .str s => s == ""
  | .arr xs => xs.isEmpty
  | .obj fs => fs.isEmpty

/-- The Python `x or y` operator on JSON values. -/
def pyOr (v d : Json) : Json := if falsy v then d else v

/-- The value bound to a key by the last binding in a member list (dict
construction keeps the last value for a duplicate key). -/
def lastLookup? (k : String) : List (String × Json) → Option Json
  | [] => none
  | kv :: rest =>
    match lastLookup? k rest with
    | some w => some w
    | none => if kv.1 = k then some kv.2 else none

/-- Python dict.get with the None default. -/
def jGet (fs : List (String × Json)) (k : String) : Json := (lastLookup? k fs).getD .null

/-- Field lookup on a JSON value known to be an object. -/
def objField : Json → String → Json
  | .obj fs, k => jGet fs k
  | _, _ => .null

/-- The whitespace json.loads skips between tokens. -/
def skipWsJson (cs : List Char) : List Char :=
  cs.dropWhile (fun c => c = ' ' || c = '\t' || c = '\n' || c = '\r')

/-- JSON string escapes.  Unicode escapes of the form backslash-u are
not modelled (they are rejected); the documents the claims exercise
contain none. -/
def escChar : Char → Option Char
  | '\x22' => some '\x22'
  | '\\' => some '\\'
  | '/' => some '/'
  | 'b' => some '\x08'
  | 'f' => some '\x0c'
  | 'n' => some '\n'
  | 'r' => some '\r'
  | 't' => some '\t'
  | _ => none

/-- The body of a JSON string after the opening quote, up to the closing
quote.  Raw control characters are rejected, as json.loads does in
strict mode. -/
def parseStringBody : List Char → Option (List Char × List Char)
  | [] => none
  | '\x22' :: rest => some ([], rest)
  | '\\' :: e :: rest =>
    match escChar e with
    | none => none
    | some c =>
      match parseStringBody rest with
      | none => none
      | some (s, r) => some (c :: s, r)
  | c :: rest =>
    if c.toNat < 32 then none
    else
      match parseStringBody rest with
      | none => none
      | some (s, r) => some (c :: s, r)

/-- The JSON grammar forbids redundant leading zeros. -/
def jsonLeadingZeroBad : List Char → Bool
  | '0' :: _ :: _ => true
  | _ => false

/-- A JSON number: optional minus, integer digits without a redundant
leading zero, optional fraction, optional exponent. -/
def jsonNumber (cs : List Char) : Option (Json × List Char) :=
  let signed : Bool × List Char :=
    match cs with
    | '-' :: r => (true, r)
    | _ => (false, cs)
  match takeDigits signed.2 with
  | ([], _) => none
  | (ids, rest1) =>
    if jsonLeadingZeroBad ids then none
    else
      match rest1 with
      | '.' :: rr =>
        (match takeDigits rr with
         | ([], _) => none
         | (fds, rest2) =>
           (parseExp rest2).map (fun er => (.num (mkDecNum signed.1 ids fds er.1), er.2)))
      | _ => (parseExp rest1).map (fun er => (.num (mkDecNum signed.1 ids [] er.1), er.2))

/-- The elements of a non-empty JSON array, after the opening bracket;
pv parses one value.  The fuel bounds the number of elements and always
suffices when it exceeds the remaining length. -/
def itemsLoop (pv : List Char → Option (Json × List Char)) :
    Nat → List Char → Option (List Json × List Char)
  | 0, _ => none
  | n+1, cs =>
    match pv cs with
    | none => none
    | some (v, r1) =>
      match skipWsJson r1 with
      | ',' :: r2 =>
        (match itemsLoop pv n r2 with
         | none => none
         | some (xs, r3) => some (v :: xs, r3))
      | ']' :: r2 => some ([v], r2)
      | _ => none

/-- The members of a non-empty JSON object, after the opening brace. -/
def membersLoop (pv : List Char → Option (Json × List Char)) :
    Nat → List Char → Option (List (String × Json) × List Char)
  | 0, _ => none
  | n+1, cs =>
    match skipWsJson cs with
    | '\x22' :: rest =>
      (match parseStringBody rest with
       | none => none
       | some (k, r1) =>
         match skipWsJson r1 with
         | ':' :: r2 =>
           (match pv r2 with
            | none => none
            | some (v, r3) =>
              match skipWsJson r3 with
              | ',' :: r4 =>
                (match membersLoop pv n r4 with
                 | none => none
                 | some (fs, r5) => some ((⟨k⟩, v) :: fs, r5))
              | '\x7d' :: r4 => some ([(⟨k⟩, v)], r4)
              | _ => none)
         | _ => none)
    | _ => none

/-- One JSON value; the fuel bounds the nesting depth and always
suffices when it exceeds the remaining length. -/
def parseValue : Nat → List Char → Option (Json × List Char)
  | 0, _ => none
  | n+1, cs =>
    match skipWsJson cs with
    | 'n' :: 'u' :: 'l' :: 'l' :: rest => some (.null, rest)
    | 't' :: 'r' :: 'u' :: 'e' :: rest => some (.bool true, rest)
    | 'f' :: 'a' :: 'l' :: 's' :: 'e' :: rest => some (.bool false, rest)
    | '\x22' :: rest =>
      (match parseStringBody rest with
       | none => none
       | some (s, r) => some (.str ⟨s⟩, r))
    | '\x7b' :: rest =>
      (match skipWsJson rest with
       | '\x7d' :: r2 => some (.obj [], r2)
       | _ =>
         match membersLoop (fun cs2 => parseValue n cs2) (rest.length + 1) rest with
         | none => none
         | some (fs, r2) => some (.obj fs, r2))
    | '[' :: rest =>
      (match skipWsJson rest with
       | ']' :: r2 => some (.arr [], r2)
       | _ =>
         match itemsLoop (fun cs2 => parseValue n cs2) (rest.length + 1) rest with
         | none => none
         | some (xs, r2) => some (.arr xs, r2))
    | other => jsonNumber other

/-- Python json.loads: one JSON document with nothing but whitespace
after it; none models json.JSONDecodeError.  The non-standard constants
NaN and Infinity that json.loads additionally tolerates are not
modelled; the documents the claims exercise contain none of them. -/
def jsonParse (s : String) : Option Json :=
  match parseValue (s.data.length + 1) s.data with
  | none => none
  | some (v, rest) => if (skipWsJson rest).isEmpty then some v else none

/-- The LLM recommendation record (orchestrator.py lines 32-37).  The
dataclass fields carry whatever values the response supplied, so they
are modelled as JSON values; a missing key is null. -/
structure LLMRecommendation where
  restaurant_id : Json
  restaurant_name : Json
  match_score : Json
  reason : Json

/-- The parsed response (orchestrator.py lines 40-45). -/
structure LLMRecommendationsResult where
  title : Json
  summary : Json
  recommendations : List LLMRecommendation
  raw_response_text : String

/-- orchestrator.py lines 132-139: one recommendation record from an
entry dict; missing keys yield null, and a falsy restaurant_name or
reason defaults to the empty string. -/
def recOfFields (fs : List (String × Json)) : LLMRecommendation :=
  { restaurant_id := jGet fs "restaurant_id"
    restaurant_name := pyOr (jGet fs "restaurant_name") (.str "")
    match_score := jGet fs "match_score"
    reason := pyOr (jGet fs "reason") (.str "") }

/-- orchestrator.py lines 128-139: the entry loop; an entry that is not
a dict is skipped with continue. -/
def parseEntries : List Json → List LLMRecommendation
  | [] => []
  | .obj fs :: rest => recOfFields fs :: parseEntries rest
  | _ :: rest => parseEntries rest

/-- Iterating the (truthy) recommendations value.  A list yields its
entries; a string yields its characters and a dict its keys, none of
which is a dict, so both yield no recommendation; iterating null, a
number or a boolean raises TypeError (none). -/
def recsFrom : Json → Option (List LLMRecommendation)
  | .arr xs => some (parseEntries xs)
  | .str _ => some []
  | .obj _ => some []
  | .null => none
  | .num _ => none
  | .bool _ => none

/-- The outcome of _parse_llm_response: the ValueError raised on a
json.loads failure, an uncaught crash (AttributeError on a non-dict top
level, TypeError on a non-iterable recommendations value), or the
parsed result. -/
inductive ParseOutcome where
  | malformed (snippet : String)
  | crash
  | ok (res : LLMRecommendationsResult)

/-- orchestrator.py line 119: the first 500 characters of the response,
embedded in the ValueError message. -/
def pySnippet (t : String) : String := ⟨t.data.take 500⟩

/-- orchestrator.py lines 111-146: parse the LLM response text. -/
def _parse_llm_response (text : String) : ParseOutcome :=
  match jsonParse text with
  | none => .malformed (pySnippet text)
  | some (.obj fields) =>
    (match recsFrom (pyOr (jGet fields "recommendations") (.arr [])) with
     | none => .crash
     | some recs =>
       .ok ⟨pyOr (jGet fields "title") (.str "Restaurant Recommendations"),
            pyOr (jGet fields "summary") (.str ""),
            recs, text⟩)
  | some _ => .crash

/-- orchestrator.py lines 10-15. -/
structure UserPreferences where
  price_preference : Option String
  location : Option String
  min_rating : Option DecNum
  cuisine_preferences : Option (List String)

/-- orchestrator.py lines 18-29. -/
structure RestaurantCandidate where
  id : String
  name : String
  city : Option String
  locality : Option String
  price_bucket : Option String
  rating : Option DecNum
  cuisines : Option (List String)
  raw : Option (List (String × Json))

/-- Serialisation of an optional string field by asdict/json. -/
def jsonOfOptStr : Option String → Json
  | none => .null
  | some s => .str s

/-- Serialisation of an optional numeric field. -/
def jsonOfOptNum : Option DecNum → Json
  | none => .null
  | some d => .num d

/-- Serialisation of an optional string-list field. -/
def jsonOfOptStrList : Option (List String) → Json
  | none => .null
  | some l => .arr (l.map Json.str)

/-- asdict(user_preferences): the fields in dataclass order. -/
def prefsDict (u : UserPreferences) : List (String × Json) :=
  [("price_preference", jsonOfOptStr u.price_preference),
   ("location", jsonOfOptStr u.location),
   ("min_rating", jsonOfOptNum u.min_rating),
   ("cuisine_preferences", jsonOfOptStrList u.cuisine_preferences)]

/-- orchestrator.py line 68: whether a value is one of None, [] and ""
(the values stripped from the preferences dict). -/
def isStrippedVal : Json → Bool
  | .null => true
  | .arr xs => xs.isEmpty
  | .str s => s == ""
  | _ => false

/-- orchestrator.py line 68: the preferences dict with unset and empty
fields stripped. -/
def cleanPrefs (u : UserPreferences) : List (String × Json) :=
  (prefsDict u).filter (fun kv => !isStrippedVal kv.2)

/-- orchestrator.py lines 73-78: asdict(c), with the raw bag, when
truthy, truncated to its first 8 keys. -/
def serializeCandidate (c : RestaurantCandidate) : Json :=
  .obj [("id", .str c.id),
        ("name", .str c.name),
        ("city", jsonOfOptStr c.city),
        ("locality", jsonOfOptStr c.locality),
        ("price_bucket", jsonOfOptStr c.price_bucket),
        ("rating", jsonOfOptNum c.rating),
        ("cuisines", jsonOfOptStrList c.cuisines),
        ("raw", match c.raw with
                | none => .null
                | some fs => if fs.isEmpty then .obj fs else .obj (fs.take 8))]

/-- orchestrator.py lines 80-91: the response-schema description sent in
the prompt. -/
def schemaDescription : Json :=
  .obj [("title", .str "Short title summarizing the recommendation context"),
        ("summary", .str "1-2 paragraphs explaining your high-level reasoning"),
        ("recommendations", .arr [
          .obj [("restaurant_id", .str "id string or null"),
                ("restaurant_name", .str "string"),
                ("match_score",
                 .str "number between 0 and 100 reflecting how well it matches the user preferences"),
                ("reason",
                 .str "1-3 sentences explaining why this restaurant is a good choice")]])]

/-- orchestrator.py lines 94-101: the instruction text, with the
recommendation cap interpolated. -/
def instructionsText (maxRecs : Nat) : String :=
  "You are given:\n1) user_preferences: the user\x27s stated preferences, and\n2) candidate_restaurants: a list of possible restaurants that you MUST choose from.\n\nSelect up to "
  ++ toString maxRecs ++
  " restaurants that best match the preferences.\nReturn ONLY a single JSON object matching the \x27response_schema\x27 below. Do not include any extra commentary or markdown.\n"

/-- orchestrator.py lines 61-108: the user-message document.  The code
serialises exactly this object with json.dumps; the claims speak about
the document contents, so it is modelled as the JSON value itself. -/
def _build_user_prompt (u : UserPreferences) (candidates : List RestaurantCandidate)
    (max_recommendations : Nat) : Json :=
  .obj [("instructions", .str (instructionsText max_recommendations)),
        ("user_preferences", .obj (cleanPrefs u)),
        ("candidate_restaurants", .arr ((candidates.take 50).map serializeCandidate)),
        ("response_schema", schemaDescription)]

/-- orchestrator.py lines 48-58: the fixed system message. -/
def _build_system_prompt : String :=
  "You are an AI restaurant recommendation assistant. Given a user\x27s preferences and a list of candidate restaurants, you must select and clearly explain the best options for the user.\n\nRequirements:\n- Always base your answer ONLY on the provided candidate restaurants.\n- Prefer restaurants that match the requested cuisine, location, and price level.\n- Prefer higher ratings, but explain trade-offs when needed.\n- Output strictly in the JSON schema described in the instructions."

/-- The outcome of the orchestrator: the ValueError raised on an empty
candidate list, or the parse outcome of the client response. -/
inductive GenOutcome where
  | emptyCandidateSet
  | result (o : ParseOutcome)

/-- orchestrator.py lines 149-190: the orchestrator entry point.  The
LLM client is modelled as an oracle from the two prompt messages to the
response text; emptyCandidateSet models the ValueError raised on an
empty candidate list (lines 165-166), before any prompt is built. -/
def generate_restaurant_recommendations (u : UserPreferences)
    (candidates : List RestaurantCandidate) (max_recommendations : Nat)
    (chat : String → Json → String) : GenOutcome :=
  if candidates.isEmpty then .emptyCandidateSet
  else
    .result (_parse_llm_response
      (chat _build_system_prompt (_build_user_prompt u candidates max_recommendations)))

/-! ## General lemmas about the embedded operations -/

theorem stripChars_infix (l : List Char) : stripChars l <:+: l := by
  have h1 : l.dropWhile isPySpace <:+ l := List.dropWhile_suffix _
  have h2 : stripChars l <+: l.dropWhile isPySpace := by
    apply List.reverse_suffix.mp
    rw [stripChars, List.reverse_reverse]
    exact List.dropWhile_suffix _
  exact h2.isInfix.trans h1.isInfix

theorem infixB_iff (n : List Char) (h : List Char) : infixB n h = true ↔ n <:+: h := by
  induction h with
  | nil =>
    constructor
    · intro hb
      rw [List.infix_nil, ← List.isEmpty_iff]
      exact hb
    · intro hi
      rw [infixB, List.isEmpty_iff]
      exact List.infix_nil.mp hi
  | cons c t ih =>
    rw [infixB, Bool.or_eq_true, List.isPrefixOf_iff_prefix, ih, List.infix_cons_iff]

theorem charListLe_total (a b : List Char) :
    charListLe a b = true ∨ charListLe b a = true := by
  induction a generalizing b with
  | nil => exact Or.inl rfl
  | cons x xs ih =>
    cases b with
    | nil => exact Or.inr rfl
    | cons y ys =>
      by_cases hxy : x.toNat = y.toNat
      · rw [charListLe, if_pos hxy, charListLe, if_pos hxy.symm]
        exact ih ys
      · have hyx : y.toNat ≠ x.toNat := fun e => hxy e.symm
        rcases Nat.lt_or_ge x.toNat y.toNat with hlt | hge
        · left
          rw [charListLe, if_neg hxy]
          exact decide_eq_true hlt
        · right
          rw [charListLe, if_neg hyx]
          exact decide_eq_true (by omega)

theorem charListLe_trans {a b c : List Char} (h1 : charListLe a b = true)
    (h2 : charListLe b c = true) : charListLe a c = true := by
  induction a generalizing b c with
  | nil => rfl
  | cons x xs ih =>
    cases b with
    | nil => exact absurd h1 (by rw [charListLe]; exact Bool.false_ne_true)
    | cons y ys =>
      cases c with
      | nil => exact absurd h2 (by rw [charListLe]; exact Bool.false_ne_true)
      | cons z zs =>
        rw [charListLe] at h1 h2 ⊢
        by_cases hxy : x.toNat = y.toNat
        · rw [if_pos hxy] at h1
          by_cases hyz : y.toNat = z.toNat
          · rw [if_pos (hxy.trans hyz)]
            rw [if_pos hyz] at h2
            exact ih h1 h2
          · rw [if_neg hyz] at h2
            have hlt : y.toNat < z.toNat := of_decide_eq_true h2
            rw [if_neg (by omega)]
            exact decide_eq_true (by omega)
        · rw [if_neg hxy] at h1
          have h1lt : x.toNat < y.toNat := of_decide_eq_true h1
          by_cases hyz : y.toNat = z.toNat
          · rw [if_neg (by omega)]
            exact decide_eq_true (by omega)
          · rw [if_neg hyz] at h2
            have h2lt : y.toNat < z.toNat := of_decide_eq_true h2
            rw [if_neg (by omega)]
            exact decide_eq_true (by omega)

/-- The ordering on surviving rows that the specification states:
strictly greater rating first (a missing or unparseable-but-guarded
rating counting as 0), ties broken by name in ascending code-point
order on the literal stored string. -/
def rowKeyRel (a b : Row) : Prop :=
  (ratOf b).toRat < (ratOf a).toRat ∨
  ((ratOf a).toRat = (ratOf b).toRat ∧ charListLe a.name.data b.name.data = true)

theorem rowLe_iff (a b : Row) : rowLe a b = true ↔ rowKeyRel a b := by
  rw [rowLe, rowKeyRel, Bool.or_eq_true, Bool.and_eq_true, DecNum.blt_iff,
    DecNum.beq_iff]

instance : IsTotal Row rowSortRel :=
  ⟨fun a b => by
    simp only [rowSortRel, rowLe_iff, rowKeyRel]
    rcases lt_trichotomy (ratOf a).toRat (ratOf b).toRat with h | h | h
    · exact Or.inr (Or.inl h)
    · rcases charListLe_total a.name.data b.name.data with hn | hn
      · exact Or.inl (Or.inr ⟨h, hn⟩)
      · exact Or.inr (Or.inr ⟨h.symm, hn⟩)
    · exact Or.inl (Or.inl h)⟩

instance : IsTrans Row rowSortRel :=
  ⟨fun a b c hab hbc => by
    simp only [rowSortRel, rowLe_iff, rowKeyRel] at hab hbc ⊢
    rcases hab with h1 | ⟨e1, n1⟩ <;> rcases hbc with h2 | ⟨e2, n2⟩
    · exact Or.inl (lt_trans h2 h1)
    · exact Or.inl (by rw [← e2]; exact h1)
    · exact Or.inl (by rw [e1]; exact h2)
    · exact Or.inr ⟨e1.trans e2, charListLe_trans n1 n2⟩⟩

theorem selectRows_eq {p : Payload} {rows out : List Row}
    (h : selectRows p rows = some out) :
    out = ((rows.filter (keepRow p)).insertionSort rowSortRel).take (numResults p) := by
  simp only [selectRows] at h
  split at h
  · exact (Option.some.inj h).symm
  · exact Option.noConfusion h

theorem selectRows_pairwise {p : Payload} {rows out : List Row}
    (h : selectRows p rows = some out) : List.Pairwise rowKeyRel out := by
  have hsorted : List.Pairwise rowSortRel
      ((rows.filter (keepRow p)).insertionSort rowSortRel) :=
    List.sorted_insertionSort rowSortRel _
  have hout : List.Pairwise rowSortRel out := by
    rw [selectRows_eq h]
    exact List.Pairwise.sublist (List.take_sublist _ _) hsorted
  exact hout.imp (fun hab => (rowLe_iff _ _).mp hab)

/-- The two candidates of the specification examples, in CSV order. -/
def laPiazzaRow : Row :=
  ⟨"1", "La Piazza", "Bangalore", "Indiranagar", "medium", "4.4", "italian|pizza"⟩

def budgetBitesRow : Row :=
  ⟨"2", "Budget Bites", "Bangalore", "Koramangala", "low", "4.0", "indian"⟩

def exampleRows : List Row := [laPiazzaRow, budgetBitesRow]

/-- Example 2 of the specification: nothing set, limit 1. -/
def examplePayload2 : Payload := ⟨none, none, none, [], some 1⟩

/-- A payload with every preference field unset. -/
def unsetPayload : Payload := ⟨none, none, none, [], none⟩

theorem keepRow_unset (r : Row) : keepRow unsetPayload r = true := rfl

/-! ## The claims -/

/-- The location fragments as claim C1 describes them: the normalised
(lowercased) location split on commas, each fragment trimmed, empty
fragments dropped. -/
def claimFragments (loc : String) : List String :=
  (((splitOnChar ',' (_norm loc).data).map stripChars).filter
    (fun l => !l.isEmpty)).map (fun l => (⟨l⟩ : String))

theorem locationOK_fragment {p : Payload} {r : Row} {loc : String}
    (hp : p.location = some loc) (hOK : locationOK p r = true) :
    ∀ q ∈ claimFragments loc,
      q.data <:+: (_norm r.std_city).data ∨ q.data <:+: (_norm r.std_locality).data := by
  intro q hq
  rw [claimFragments] at hq
  simp only [List.mem_map, List.mem_filter] at hq
  obtain ⟨l, ⟨hlmem, hne⟩, hql⟩ := hq
  obtain ⟨part, hpart, hstrip⟩ := hlmem
  by_cases he : _norm loc = ""
  · rw [he] at hpart
    have hpartnil : part = [] := by
      simpa [splitOnChar, show ("" : String).data = [] from rfl] using hpart
    rw [hpartnil] at hstrip
    rw [← hstrip] at hne
    exact absurd hne (by simp [stripChars])
  · have hmem : part ∈ locationParts p := by
      rw [locationParts, hp]
      simp only [Option.getD_some]
      rw [if_neg he]
      refine List.mem_filter.mpr ⟨hpart, ?_⟩
      rw [hstrip]
      exact hne
    rw [locationOK] at hOK
    have hall := List.all_eq_true.mp hOK part hmem
    rw [Bool.or_eq_true, Bool.and_eq_true, Bool.and_eq_true] at hall
    have hqpart : q.data <:+: part := by
      rw [← hql]
      show l <:+: part
      rw [← hstrip]
      exact stripChars_infix part
    rcases hall with ⟨-, hcity⟩ | ⟨-, hloc2⟩
    · exact Or.inl (hqpart.trans ((infixB_iff _ _).mp hcity))
    · exact Or.inr (hqpart.trans ((infixB_iff _ _).mp hloc2))

/-- Claim C1: when the location preference is set, it is split on commas
into non-empty trimmed lowercase fragments, and a candidate is kept only
if every fragment occurs (case-insensitively, realised by the shared
normalisation) in the candidate's city or in the candidate's locality;
when the location preference is unset, the location check passes every
candidate. -/
theorem claim_C1 :
    (∀ (p : Payload) (loc : String) (r : Row), p.location = some loc →
      keepRow p r = true → ∀ q ∈ claimFragments loc,
        q.data <:+: (_norm r.std_city).data ∨ q.data <:+: (_norm r.std_locality).data) ∧
    (∀ (p : Payload) (r : Row), p.location = none → locationOK p r = true) := by
  constructor
  · intro p loc r hp hkeep
    have hOK : locationOK p r = true := by
      rw [keepRow, Bool.and_eq_true, Bool.and_eq_true, Bool.and_eq_true] at hkeep
      exact hkeep.1.1.1
    exact locationOK_fragment hp hOK
  · intro p r hp
    rw [locationOK, locationParts, hp]
    rfl

/-- A location preference accepted by the filter, used to exercise
claim C1 at a concrete input. -/
def locPayloadW : Payload := ⟨some "Indiranagar", none, none, [], none⟩

theorem claim_C1_witness :
    locPayloadW.location = some "Indiranagar" ∧
    keepRow locPayloadW laPiazzaRow = true ∧
    ("indiranagar".data <:+: (_norm laPiazzaRow.std_city).data ∨
     "indiranagar".data <:+: (_norm laPiazzaRow.std_locality).data) :=
  ⟨rfl, rfl,
    claim_C1.1 locPayloadW "Indiranagar" laPiazzaRow rfl rfl "indiranagar" (by decide)⟩

/-- Claim C2: an input text that is not well-formed JSON at the top
level makes the parser fail with the malformed-response error (and it
never returns a result on such an input); in particular the text
consisting of an opening brace followed by "not json" fails that way. -/
theorem claim_C2 :
    (∀ t : String, jsonParse t = none →
      _parse_llm_response t = .malformed (pySnippet t)) ∧
    _parse_llm_response "\x7bnot json" = .malformed "\x7bnot json" := by
  constructor
  · intro t ht
    rw [_parse_llm_response, ht]
  · rfl

theorem claim_C2_witness :
    jsonParse "\x7bnot json" = none ∧
    _parse_llm_response "\x7bnot json" = .malformed (pySnippet "\x7bnot json") :=
  ⟨rfl, claim_C2.1 "\x7bnot json" rfl⟩

/-- The entry projection of claim C3: a dict entry parses to a record,
anything else is skipped. -/
def entryRec? : Json → Option LLMRecommendation
  | .obj fs => some (recOfFields fs)
  | _ => none

theorem parseEntries_eq_filterMap (xs : List Json) :
    parseEntries xs = xs.filterMap entryRec? := by
  induction xs with
  | nil => rfl
  | cons x rest ih =>
    cases x <;> simp [parseEntries, entryRec?, List.filterMap_cons, ih]

/-- Example 4 of the specification: a well-formed document whose
recommendations array has one valid entry and one entry missing
restaurant_name. -/
def ex4text : String :=
  "\x7b\"title\": \"T\", \"summary\": \"S\", \"recommendations\": [\x7b\"restaurant_id\": \"r1\", \"restaurant_name\": \"Alpha\", \"match_score\": 90, \"reason\": \"good\"\x7d, \x7b\"restaurant_id\": \"r2\", \"match_score\": 80, \"reason\": \"ok\"\x7d]\x7d"

set_option maxRecDepth 10000 in
/-- Claim C3: within a successfully parsed document, an entry that is
not a record is silently skipped (the result is built from the entries
that do parse), an entry that is a record but has no restaurant_name is
kept with restaurant_name defaulted to the empty string, and the
two-entry example yields exactly two recommendations, the second with
an empty restaurant_name. -/
theorem claim_C3 :
    (∀ xs : List Json, parseEntries xs = xs.filterMap entryRec?) ∧
    (∀ fs : List (String × Json), jGet fs "restaurant_name" = .null →
      (recOfFields fs).restaurant_name = .str "") ∧
    _parse_llm_response ex4text =
      .ok ⟨.str "T", .str "S",
        [⟨.str "r1", .str "Alpha", .num ⟨90, 0⟩, .str "good"⟩,
         ⟨.str "r2", .str "", .num ⟨80, 0⟩, .str "ok"⟩], ex4text⟩ := by
  refine ⟨parseEntries_eq_filterMap, ?_, rfl⟩
  intro fs h
  show pyOr (jGet fs "restaurant_name") (.str "") = .str ""
  rw [h]
  rfl

theorem claim_C3_witness :
    jGet [] "restaurant_name" = Json.null ∧
    (recOfFields []).restaurant_name = .str "" :=
  ⟨rfl, claim_C3.2.1 [] rfl⟩

/-- Claim C4: every successful output of the filter engine is the
sorted-then-truncated survivor list — ordered descending by rating
(missing rating as 0) with ties broken ascending by name on the literal
stored string, cut to the first limit entries — and the two-candidate
example with empty preferences and limit 1 yields exactly La Piazza. -/
theorem claim_C4 :
    (∀ (p : Payload) (rows out : List Row), selectRows p rows = some out →
      List.Pairwise rowKeyRel out ∧
      out = ((rows.filter (keepRow p)).insertionSort rowSortRel).take (numResults p)) ∧
    (selectRows examplePayload2 exampleRows).map (fun l => l.map Row.name) =
      some ["La Piazza"] :=
  ⟨fun _ _ _ h => ⟨selectRows_pairwise h, selectRows_eq h⟩, rfl⟩

/-- The same candidates with limit 5, used to exercise claim C4. -/
def examplePayload5 : Payload := ⟨none, none, none, [], some 5⟩

theorem claim_C4_witness :
    List.Pairwise rowKeyRel [laPiazzaRow, budgetBitesRow] ∧
    [laPiazzaRow, budgetBitesRow] =
      ((exampleRows.filter (keepRow examplePayload5)).insertionSort rowSortRel).take
        (numResults examplePayload5) :=
  claim_C4.1 examplePayload5 exampleRows [laPiazzaRow, budgetBitesRow] rfl

/-- Claim C5: the orchestrator called with an empty candidate list fails
with the empty-candidate-set error for every preferences value, and with
a non-empty candidate list it proceeds to the prompt/parse pipeline, so
it never yields that error. -/
theorem claim_C5 :
    (∀ (u : UserPreferences) (maxRecs : Nat) (chat : String → Json → String),
      generate_restaurant_recommendations u [] maxRecs chat = .emptyCandidateSet) ∧
    (∀ (u : UserPreferences) (c : RestaurantCandidate)
      (cs : List RestaurantCandidate) (maxRecs : Nat) (chat : String → Json → String),
      generate_restaurant_recommendations u (c :: cs) maxRecs chat =
        .result (_parse_llm_response
          (chat _build_system_prompt (_build_user_prompt u (c :: cs) maxRecs)))) :=
  ⟨fun _ _ _ => rfl, fun _ _ _ _ _ => rfl⟩

/-- Claim C6: with every preference field unset the filter keeps all
input candidates, and every successful output is the input reordered by
the rating/name sort only, truncated to the limit. -/
theorem claim_C6 :
    (∀ rows : List Row, rows.filter (keepRow unsetPayload) = rows) ∧
    (∀ (rows out : List Row), selectRows unsetPayload rows = some out →
      out = (rows.insertionSort rowSortRel).take (numResults unsetPayload) ∧
      (rows.insertionSort rowSortRel).Perm rows) := by
  have hfilter : ∀ rows : List Row, rows.filter (keepRow unsetPayload) = rows :=
    fun rows => List.filter_eq_self.mpr (fun a _ => keepRow_unset a)
  refine ⟨hfilter, fun rows out h => ⟨?_, List.perm_insertionSort _ _⟩⟩
  have heq := selectRows_eq h
  rwa [hfilter rows] at heq

theorem claim_C6_witness :
    [laPiazzaRow, budgetBitesRow] =
      (exampleRows.insertionSort rowSortRel).take (numResults unsetPayload) ∧
    (exampleRows.insertionSort rowSortRel).Perm exampleRows :=
  claim_C6.2 exampleRows [laPiazzaRow, budgetBitesRow] rfl

/-- The number of keys in the serialised raw bag of a candidate
document. -/
def rawKeyCount (j : Json) : Nat :=
  match objField j "raw" with
  | .obj fs => fs.length
  | _ => 0

theorem serializeCandidate_raw (c : RestaurantCandidate) :
    objField (serializeCandidate c) "raw" =
      (match c.raw with
       | none => Json.null
       | some fs => if fs.isEmpty then Json.obj fs else Json.obj (fs.take 8)) := rfl

/-- Claim C7: the user-message document carries the preferences with
unset/empty fields stripped, at most the first 50 candidates of the
input sequence, and each candidate's passthrough attribute bag truncated
to at most 8 keys, whatever the sizes of the inputs. -/
theorem claim_C7 :
    ∀ (u : UserPreferences) (cands : List RestaurantCandidate) (maxRecs : Nat),
      objField (_build_user_prompt u cands maxRecs) "user_preferences" =
        .obj (cleanPrefs u) ∧
      objField (_build_user_prompt u cands maxRecs) "candidate_restaurants" =
        .arr ((cands.take 50).map serializeCandidate) ∧
      ((cands.take 50).map serializeCandidate).length ≤ 50 ∧
      (∀ c : RestaurantCandidate, rawKeyCount (serializeCandidate c) ≤ 8) := by
  intro u cands maxRecs
  refine ⟨rfl, rfl, ?_, ?_⟩
  · rw [List.length_map, List.length_take]
    omega
  · intro c
    rw [rawKeyCount, serializeCandidate_raw c]
    cases c.raw with
    | none => simp
    | some fs =>
      cases fs with
      | nil => simp
      | cons kv rest =>
        show ((kv :: rest).take 8).length ≤ 8
        rw [List.length_take]
        omega

/-- Claim C8: no response of the CSV fallback composer has both the
explanation and the explanation error populated, and a data-access or
parse failure on the CSV yields a response with only the explanation
error set and an empty restaurant list. -/
theorem claim_C8 :
    (∀ (load : CsvLoad) (p : Payload) (resp : FallbackResponse),
      recommendations_from_csv load p = some resp →
      resp.explanation = none ∨ resp.explanation_error = none) ∧
    (∀ (load : CsvLoad) (p : Payload) (resp : FallbackResponse),
      (load = .missing ∨ ∃ msg, load = .failed msg) →
      recommendations_from_csv load p = some resp →
      resp.explanation = none ∧ resp.restaurants = [] ∧
        resp.explanation_error.isSome = true) := by
  constructor
  · intro load p resp h
    cases load with
    | missing =>
      rw [← Option.some.inj h]
      exact Or.inl rfl
    | failed msg =>
      rw [← Option.some.inj h]
      exact Or.inl rfl
    | ok rows =>
      rw [recommendations_from_csv] at h
      cases hsel : selectRows p rows with
      | none =>
        rw [hsel] at h
        exact Option.noConfusion h
      | some top =>
        rw [hsel] at h
        rw [← Option.some.inj h]
        exact Or.inr rfl
  · intro load p resp hcase h
    rcases hcase with hmiss | ⟨msg, hfail⟩
    · subst hmiss
      rw [← Option.some.inj h]
      exact ⟨rfl, rfl, rfl⟩
    · subst hfail
      rw [← Option.some.inj h]
      exact ⟨rfl, rfl, rfl⟩

theorem claim_C8_witness :
    ((⟨[], none, some "CSV not found."⟩ : FallbackResponse).explanation = none ∨
     (⟨[], none, some "CSV not found."⟩ : FallbackResponse).explanation_error = none) ∧
    ((⟨[], none, some "CSV not found."⟩ : FallbackResponse).explanation = none ∧
     (⟨[], none, some "CSV not found."⟩ : FallbackResponse).restaurants = [] ∧
     (⟨[], none, some "CSV not found."⟩ : FallbackResponse).explanation_error.isSome = true) :=
  ⟨claim_C8.1 .missing unsetPayload ⟨[], none, some "CSV not found."⟩ rfl,
   claim_C8.2 .missing unsetPayload ⟨[], none, some "CSV not found."⟩ (Or.inl rfl) rfl⟩

/-- Claim C9: whenever parsing succeeds, the result retains the input
text verbatim in raw_response_text, also when individual entries were
skipped. -/
theorem claim_C9 :
    ∀ (t : String) (res : LLMRecommendationsResult),
      _parse_llm_response t = .ok res → res.raw_response_text = t := by
  intro t res h
  rw [_parse_llm_response] at h
  split at h
  · exact ParseOutcome.noConfusion h
  · split at h
    · exact ParseOutcome.noConfusion h
    · rw [← ParseOutcome.ok.inj h]
  · exact ParseOutcome.noConfusion h

/-- A response whose recommendations array contains one malformed entry
(a bare number) next to a valid record, exercising claim C9 on a text
where an entry is skipped. -/
def ex9text : String :=
  "\x7b\"recommendations\": [5, \x7b\"restaurant_name\": \"A\"\x7d]\x7d"

set_option maxRecDepth 10000 in
theorem claim_C9_witness :
    (⟨.str "Restaurant Recommendations", .str "",
      [⟨.null, .str "A", .null, .str ""⟩], ex9text⟩ :
        LLMRecommendationsResult).raw_response_text = ex9text :=
  claim_C9 ex9text
    ⟨.str "Restaurant Recommendations", .str "",
      [⟨.null, .str "A", .null, .str ""⟩], ex9text⟩ rfl

/-- A row whose rating field is present but not parseable as a number. -/
def badRow : Row :=
  ⟨"b1", "Mystery Diner", "Bangalore", "Indiranagar", "low", "not-a-number", "indian"⟩

/-- A payload whose minimum-rating constraint is set to 0, so the
minimum-rating filter is exercised. -/
def c10Payload : Payload := ⟨none, none, some ⟨0, 0⟩, [], none⟩

/-- Claim C10: a candidate whose rating field is present but not
parseable passes the minimum-rating filter with the guarded conversion
treating it as 0, yet the sort step re-converts the same field without
a guard, so the select operation on an input containing such a
candidate fails with an unhandled conversion error (modelled by none)
instead of returning a result. -/
theorem claim_C10 :
    ratingOf? badRow = none ∧
    ratOf badRow = ⟨0, 0⟩ ∧
    keepRow c10Payload badRow = true ∧
    selectRows c10Payload [badRow] = none :=
  ⟨rfl, rfl, rfl, rfl⟩

end RestRec
